import Mathlib

/-!
Shallow embedding of the connection-bound producer runtime of a Pulsar C++
client: the broker-error mapping, chunk counting, admission control, the
pending-message queue (`ProducerImpl`), and the connection-side pending-request
registry, keep-alive logic and `maxMessageSize` handling (`ClientConnection`).

Machine integers of the source (`uint32_t`, `uint64_t`, `int64_t`) are embedded
as `Nat`/`Int`; none of the embedded computations can overflow in the scenarios
the theorems quantify over, so no explicit modular reduction is added.
-/

namespace PulsarClient

/-- Library `Result` codes (`pulsar::Result`), restricted to the constructors
the embedded functions mention. -/
inductive Result where
  | Ok
  | UnknownError
  | Timeout
  | NotConnected
  | AlreadyClosed
  | Interrupted
  | ProducerQueueIsFull
  | MemoryBufferIsFull
  | MessageTooBig
  | InvalidMessage
  | ChecksumError
  | CryptoError
  | ProducerFenced
  | ProducerBlockedQuotaExceededError
  | ProducerBlockedQuotaExceededException
  | TopicTerminated
  | IncompatibleSchema
  | AuthenticationError
  | AuthorizationError
  | BrokerMetadataError
  | BrokerPersistenceError
  | ServiceUnitNotReady
  | Retryable
  | TooManyLookupRequestException
  | ConnectError
  | Disconnected
  | ConsumerBusy
  | TopicNotFound
  | SubscriptionNotFound
  | ConsumerNotFound
  | UnsupportedVersionError
  | ProducerBusy
  | InvalidTopicName
  | ConsumerAssignError
  | TransactionCoordinatorNotFoundError
  | InvalidTxnStatusError
  | NotAllowedError
  | TransactionConflict
  | TransactionNotFound
  deriving DecidableEq, Repr

/-!
## Substring search

`std::string::find(sub) != npos` is embedded as an executable search for an
occurrence of `sub` inside the receiver, plus a `Prop`-level characterisation.
-/

/-- `startsWithChars s sub` holds when `sub` occurs at the very beginning of
`s` (the anchored step of `std::string::find`). -/
def startsWithChars : List Char → List Char → Bool
  | _, [] => true
  | [], _ :: _ => false
  | c :: cs, d :: ds => c == d && startsWithChars cs ds

/-- `hasSubChars s sub` decides whether `sub` occurs contiguously anywhere in
`s`, i.e. `std::string::find(sub) != std::string::npos`. -/
def hasSubChars : List Char → List Char → Bool
  | [], sub => startsWithChars [] sub
  | c :: cs, sub => startsWithChars (c :: cs) sub || hasSubChars cs sub

/-- String-level wrapper of `hasSubChars`. -/
def containsSubstr (s sub : String) : Bool :=
  hasSubChars s.toList sub.toList

theorem startsWithChars_iff (s sub : List Char) :
    startsWithChars s sub = true ↔ ∃ t, s = sub ++ t := by
  induction sub generalizing s with
  | nil => simp [startsWithChars]
  | cons d ds ih =>
    cases s with
    | nil => simp [startsWithChars]
    | cons c cs =>
      simp only [startsWithChars, Bool.and_eq_true, beq_iff_eq, ih, List.cons_append,
        List.cons.injEq]
      constructor
      · rintro ⟨rfl, t, rfl⟩
        exact ⟨t, rfl, rfl⟩
      · rintro ⟨t, rfl, rfl⟩
        exact ⟨rfl, t, rfl⟩

theorem hasSubChars_iff (s sub : List Char) :
    hasSubChars s sub = true ↔ ∃ pre post, s = pre ++ sub ++ post := by
  induction s with
  | nil =>
    simp only [hasSubChars, startsWithChars_iff]
    constructor
    · rintro ⟨t, ht⟩
      exact ⟨[], t, by simpa using ht⟩
    · rintro ⟨pre, post, h⟩
      rcases List.append_eq_nil.mp (List.append_eq_nil.mp h.symm).1 with ⟨h1, h2⟩
      exact ⟨post, by simp [h2, (List.append_eq_nil.mp h.symm).2]⟩
  | cons c cs ih =>
    simp only [hasSubChars, Bool.or_eq_true, startsWithChars_iff, ih]
    constructor
    · rintro (⟨t, ht⟩ | ⟨pre, post, h⟩)
      · exact ⟨[], t, by simpa using ht⟩
      · exact ⟨c :: pre, post, by simp [h]⟩
    · rintro ⟨pre, post, h⟩
      cases pre with
      | nil => exact Or.inl ⟨post, by simpa using h⟩
      | cons p ps =>
        right
        refine ⟨ps, post, ?_⟩
        have := (List.cons.injEq .. ▸ h).2
        simpa [List.append_assoc] using this

/-- `Prop`-level "the message contains `sub` as a contiguous substring". -/
def ContainsSub (s sub : String) : Prop :=
  ∃ pre post, s.toList = pre ++ sub.toList ++ post

theorem containsSubstr_iff (s sub : String) :
    containsSubstr s sub = true ↔ ContainsSub s sub :=
  hasSubChars_iff s.toList sub.toList

/-!
## Broker error mapping (`getResult` in `ClientConnection.cc`)

`proto::ServerError` is a protobuf enum; it is embedded as `Nat` carrying the
enum's wire values, so that a value outside the known range can fall through
the `switch` to the trailing `return ResultUnknownError`, exactly as an
out-of-range enum value does in the source.
-/

namespace ServerError

/-- Modelled from the spec: the wire numbering of the protobuf `ServerError`
enum. The protocol definition (`PulsarApi.proto`, compiled into the
`PulsarApi.pb.h` the source includes) is not part of this extract; the spec
fixes only that the command payload is the Protocol-Buffers `BaseCommand` of
the Pulsar wire protocol, whose `ServerError` enum assigns the values below
(0..25, with `ProducerFenced = 25` the largest). -/
def UnknownError : Nat := 0

def MetadataError : Nat := 1
def PersistenceError : Nat := 2
def AuthenticationError : Nat := 3
def AuthorizationError : Nat := 4
def ConsumerBusy : Nat := 5
def ServiceNotReady : Nat := 6
def ProducerBlockedQuotaExceededError : Nat := 7
def ProducerBlockedQuotaExceededException : Nat := 8
def ChecksumError : Nat := 9
def UnsupportedVersionError : Nat := 10
def TopicNotFound : Nat := 11
def SubscriptionNotFound : Nat := 12
def ConsumerNotFound : Nat := 13
def TooManyRequests : Nat := 14
def TopicTerminatedError : Nat := 15
def ProducerBusy : Nat := 16
def InvalidTopicName : Nat := 17
def IncompatibleSchema : Nat := 18
def ConsumerAssignError : Nat := 19
def TransactionCoordinatorNotFound : Nat := 20
def InvalidTxnStatus : Nat := 21
def NotAllowedError : Nat := 22
def TransactionConflict : Nat := 23
def TransactionNotFound : Nat := 24
def ProducerFenced : Nat := 25

end ServerError

/-- `getResult(ServerError, message)`: the `switch` mapping broker errors to
library results, one arm per named enum case of the source (including
`TooManyRequests -> ResultTooManyLookupRequestException`); `ServiceNotReady`
consults the error message, and any value outside the known enum range reaches
the trailing `return ResultUnknownError`. -/
def getResult (serverError : Nat) (message : String) : Result :=
  match serverError with
  | 0 => Result.UnknownError
  | 1 => Result.BrokerMetadataError
  | 2 => Result.BrokerPersistenceError
  | 3 => Result.AuthenticationError
  | 4 => Result.AuthorizationError
  | 5 => Result.ConsumerBusy
  | 6 =>
    if containsSubstr message "PulsarServerException" then Result.ServiceUnitNotReady
    else Result.Retryable
  | 7 => Result.ProducerBlockedQuotaExceededError
  | 8 => Result.ProducerBlockedQuotaExceededException
  | 9 => Result.ChecksumError
  | 10 => Result.UnsupportedVersionError
  | 11 => Result.TopicNotFound
  | 12 => Result.SubscriptionNotFound
  | 13 => Result.ConsumerNotFound
  | 14 => Result.TooManyLookupRequestException
  | 15 => Result.TopicTerminated
  | 16 => Result.ProducerBusy
  | 17 => Result.InvalidTopicName
  | 18 => Result.IncompatibleSchema
  | 19 => Result.ConsumerAssignError
  | 20 => Result.TransactionCoordinatorNotFoundError
  | 21 => Result.InvalidTxnStatusError
  | 22 => Result.NotAllowedError
  | 23 => Result.TransactionConflict
  | 24 => Result.TransactionNotFound
  | 25 => Result.ProducerFenced
  | _ + 26 => Result.UnknownError

/-!
## Chunk counting (`ProducerImpl::getNumOfChunks`)
-/

/-- `ProducerImpl::getNumOfChunks(uint32_t size, uint32_t maxMessageSize)`. -/
def getNumOfChunks (size maxMessageSize : Nat) : Nat :=
  if size ≥ maxMessageSize ∧ maxMessageSize ≠ 0 then
    size / maxMessageSize + (if size % maxMessageSize == 0 then 0 else 1)
  else 1

/-!
## Producer data model (`ProducerImpl`)
-/

/-- `HandlerBase::State`. -/
inductive HandlerState where
  | NotStarted
  | Pending
  | Ready
  | Closing
  | Closed
  | Failed
  | Producer_Fenced
  deriving DecidableEq, Repr

/-- Fields of a concrete `MessageId` (ledger, entry, partition, batch index). -/
structure MessageIdData where
  ledgerId : Int
  entryId : Int
  partition : Int
  batchIndex : Int
  deriving DecidableEq, Repr

/-- A `MessageId` handed to a send callback: either a plain id or the composite
id of a chunked message (`ChunkMessageIdImpl::build`), which pairs the first
and the last chunk's ids. -/
inductive MessageId where
  | plain (d : MessageIdData)
  | chunk (first last : MessageIdData)
  deriving DecidableEq, Repr

/-- The shared `ChunkMessageIdImpl` attached to every chunk's op: the first
chunk's ack records `firstChunkMessageId` here. -/
structure ChunkMessageIdCtx where
  firstChunkMessageId : MessageIdData
  deriving DecidableEq, Repr

/-- The part of `OpSendMsgs`'s `sendArgs` the embedding tracks: the sequence id
stamped at creation and the already-encoded frame (opaque bytes). Resending
never rebuilds these. -/
structure SendArgs where
  sequenceId : Nat
  frame : List Nat
  deriving DecidableEq, Repr

/-- `OpSendMsg`: one entry of `pendingMessagesQueue_`. -/
structure OpSendMsg where
  sendArgs : SendArgs
  result : Result
  messagesCount : Nat
  messagesSize : Nat
  /-- Absolute send-timeout deadline (`op->timeout`), in milliseconds. -/
  timeout : Int
  chunkId : Nat
  numChunks : Nat
  chunkedMessageId : Option ChunkMessageIdCtx
  deriving DecidableEq, Repr

/-- The producer state the embedded operations read and write. The semaphore is
its number of available permits (`none` when `maxPendingMessages <= 0`, i.e. no
semaphore is configured), and the memory-limit controller is its current usage
plus the client-wide limit. The batch container is the list of ops its
`createOpSendMsgs` would produce (`none` when batching is disabled). -/
structure ProducerState where
  state : HandlerState
  pendingMessagesQueue : List OpSendMsg
  batchMessageContainer : Option (List OpSendMsg)
  semaphore : Option Nat
  semaphoreClosed : Bool
  memUsed : Nat
  memLimit : Nat
  lastSequenceIdPublished : Int
  msgSequenceGenerator : Int
  partition : Int
  sendTimeoutMs : Int
  blockIfQueueFull : Bool
  initialSequenceId : Int
  producerName : String
  schemaVersion : String
  topicEpoch : Option Nat
  cnx : Option Nat
  deriving DecidableEq, Repr

/-- `ProducerImpl::releaseSemaphoreForSendOp`: release `messagesCount` permits
(when a semaphore is configured) and `messagesSize` bytes of memory. -/
def releaseSemaphoreForSendOp (p : ProducerState) (op : OpSendMsg) : ProducerState :=
  { p with
    semaphore := p.semaphore.map (· + op.messagesCount)
    memUsed := p.memUsed - op.messagesSize }

/-- `ProducerImpl::releaseSemaphore(payloadSize)`: release one permit and
`payloadSize` bytes of memory. -/
def releaseSemaphore (p : ProducerState) (payloadSize : Nat) : ProducerState :=
  { p with
    semaphore := p.semaphore.map (· + 1)
    memUsed := p.memUsed - payloadSize }

/-- Modelled from the spec: `Semaphore` and `MemoryLimitController` (their
sources are not part of this extract). `tryAcquire` succeeds exactly when a
permit is available; `tryReserveMemory(bytes)` succeeds exactly when the byte
budget admits `bytes` more; the blocking `acquire`/`reserveMemory` fail only
when the producer is being closed (returning `Interrupted`), which the flag
`semaphoreClosed` captures. `ProducerImpl::canEnqueueRequest(payloadSize)`
itself is embedded directly from the source. -/
def canEnqueueRequest (p : ProducerState) (payloadSize : Nat) : Result × ProducerState :=
  if p.blockIfQueueFull then
    if p.semaphoreClosed then (Result.Interrupted, p)
    else
      let p1 := { p with semaphore := p.semaphore.map (· - 1) }
      (Result.Ok, { p1 with memUsed := p1.memUsed + payloadSize })
  else
    match p.semaphore with
    | some n =>
      if n = 0 then (Result.ProducerQueueIsFull, p)
      else
        let p1 := { p with semaphore := some (n - 1) }
        if p1.memUsed + payloadSize ≤ p1.memLimit then
          (Result.Ok, { p1 with memUsed := p1.memUsed + payloadSize })
        else
          (Result.MemoryBufferIsFull, { p1 with semaphore := some n })
    | none =>
      if p.memUsed + payloadSize ≤ p.memLimit then
        (Result.Ok, { p with memUsed := p.memUsed + payloadSize })
      else
        (Result.MemoryBufferIsFull, p)

/-- `ProducerImpl::getPendingCallbacksWhenFailed`: swap out the whole pending
queue, release each op's permits and memory, then (when batching is enabled and
the container is non-empty) drain the batch container too, releasing every
created op and keeping those whose creation succeeded. Returns the ops whose
callbacks the caller must complete, plus the updated state. -/
def getPendingCallbacksWhenFailed (p : ProducerState) :
    List OpSendMsg × ProducerState :=
  let pendingMessages := p.pendingMessagesQueue
  let p1 := pendingMessages.foldl releaseSemaphoreForSendOp
    { p with pendingMessagesQueue := [] }
  match p1.batchMessageContainer with
  | none => (pendingMessages, p1)
  | some ops =>
    if ops.isEmpty then (pendingMessages, p1)
    else
      let p2 := ops.foldl releaseSemaphoreForSendOp p1
      (pendingMessages ++ ops.filter (fun op => op.result == Result.Ok),
        { p2 with batchMessageContainer := some [] })

/-- The error code a timer handler receives: `none` when the timer actually
expired, `aborted` when it was cancelled, `other` for any other error. -/
inductive TimerErr where
  | aborted
  | other
  deriving DecidableEq, Repr

/-- `ProducerImpl::handleSendTimeout(err)`. Returns the updated producer state,
the duration (ms) the send timer is re-armed to (`none` when it is not
re-armed), and the list of completions `op->complete(ResultTimeout, {})`
performed after the lock is released. -/
def handleSendTimeout (p : ProducerState) (err : Option TimerErr) (now : Int) :
    ProducerState × Option Int × List (OpSendMsg × Result) :=
  if p.state ≠ HandlerState.Pending ∧ p.state ≠ HandlerState.Ready then (p, none, [])
  else if err.isSome then (p, none, [])
  else
    match p.pendingMessagesQueue with
    | [] => (p, some p.sendTimeoutMs, [])
    | op :: _ =>
      let diff := op.timeout - now
      if diff ≤ 0 then
        let drained := getPendingCallbacksWhenFailed p
        (drained.2, some p.sendTimeoutMs,
          drained.1.map (fun o => (o, Result.Timeout)))
      else
        (p, some diff, [])

/-- `MessageIdBuilder::from(rawMessageId).partition(partition_).build()`. -/
def partitionAugment (raw : MessageIdData) (partition : Int) : MessageIdData :=
  { raw with partition := partition }

/-- The message id `ackReceived` hands to `op->complete` once the head op's
sequence id matched: the partition-augmented id, except that the last chunk of
a chunked message builds the composite id from the shared
`ChunkMessageIdImpl`. -/
def ackMessageId (op : OpSendMsg) (messageId : MessageIdData) : MessageId :=
  match op.chunkedMessageId with
  | none => MessageId.plain messageId
  | some ctx =>
    if op.chunkId = 0 then MessageId.plain messageId
    else if op.chunkId = op.numChunks - 1 then
      MessageId.chunk ctx.firstChunkMessageId messageId
    else MessageId.plain messageId

/-- `ProducerImpl::ackReceived(sequenceId, rawMessageId)`. Returns the boolean
result handed back to the connection (`false` asks the caller to close the
connection), the updated producer state, and the completion
`opSendMsg->complete(ResultOk, messageId)` performed after the lock is
released (`none` when no callback is completed). -/
def ackReceived (p : ProducerState) (sequenceId : Nat) (rawMessageId : MessageIdData) :
    Bool × ProducerState × Option (Result × MessageId) :=
  let messageId := partitionAugment rawMessageId p.partition
  match p.pendingMessagesQueue with
  | [] => (true, p, none)
  | op :: rest =>
    if op.result ≠ Result.Ok then (false, p, none)
    else
      let expectedSequenceId := op.sendArgs.sequenceId
      if sequenceId > expectedSequenceId then (false, p, none)
      else if sequenceId < expectedSequenceId then (true, p, none)
      else
        let msgId := ackMessageId op messageId
        let p1 := releaseSemaphoreForSendOp p op
        let p2 := { p1 with
          lastSequenceIdPublished := (sequenceId : Int) + op.messagesCount - 1
          pendingMessagesQueue := rest }
        (true, p2, some (Result.Ok, msgId))

/-!
## Reconnection resend (`ProducerImpl::resendMessages`, `handleCreateProducer`)

The success path of `handleCreateProducer` runs entirely under the producer
mutex, so it is embedded as one atomic function emitting the ordered trace of
externally visible actions it performs.
-/

/-- Externally visible actions of the create-producer success path. -/
inductive ProducerEvent where
  | registerProducer (cnxId : Nat)
  | sendToCnx (cnxId : Nat) (args : SendArgs)
  | attachCnx (cnxId : Nat)
  | setReady
  deriving DecidableEq, Repr

/-- `ProducerImpl::resendMessages(cnx)`: write every pending op's `sendArgs`
to `cnx`, in queue order, without touching the ops. -/
def resendMessages (p : ProducerState) (cnxId : Nat) : List ProducerEvent :=
  p.pendingMessagesQueue.map (fun op => ProducerEvent.sendToCnx cnxId op.sendArgs)

/-- The `ResponseData` of a successful CREATE_PRODUCER response. -/
structure ResponseData where
  producerName : String
  lastSequenceId : Int
  schemaVersion : String
  topicEpoch : Option Nat
  deriving DecidableEq, Repr

/-- The `result == ResultOk` branch of `ProducerImpl::handleCreateProducer`
(the producer is still Pending or Ready): register with the connection, record
the assigned name/schema/epoch, adopt the broker's last sequence id when none
was ever published, resend the pending queue, attach the connection, and only
then become Ready. Returns the new state and the ordered action trace. -/
def handleCreateProducerOk (p : ProducerState) (cnxId : Nat) (rd : ResponseData) :
    ProducerState × List ProducerEvent :=
  let p1 := { p with
    producerName := rd.producerName
    schemaVersion := rd.schemaVersion
    topicEpoch := rd.topicEpoch }
  let p2 :=
    if p1.lastSequenceIdPublished = -1 ∧ p1.initialSequenceId = -1 then
      { p1 with
        lastSequenceIdPublished := rd.lastSequenceId
        msgSequenceGenerator := rd.lastSequenceId + 1 }
    else p1
  let sends := resendMessages p2 cnxId
  let p3 := { p2 with cnx := some cnxId }
  let p4 := { p3 with state := HandlerState.Ready }
  (p4, ProducerEvent.registerProducer cnxId :: sends ++
    [ProducerEvent.attachCnx cnxId, ProducerEvent.setReady])

/-!
## `maxMessageSize` handling (`ClientConnection::handlePulsarConnected`)
-/

/-- The fields of a `proto::CommandConnected` frame the embedding reads. -/
structure CommandConnected where
  hasServerVersion : Bool
  hasMaxMessageSize : Bool
  maxMessageSize : Int
  protocolVersion : Nat
  deriving DecidableEq, Repr

/-- The effect of `ClientConnection::handlePulsarConnected` on the process-wide
atomic `maxMessageSize_` (read back by `ClientConnection::getMaxMessageSize`):
a frame without a server version closes the connection before the store; a
frame carrying `max_message_size` stores the advertised value unconditionally;
otherwise the stored value is untouched. -/
def handlePulsarConnectedMaxMessageSize (current : Int) (cmd : CommandConnected) : Int :=
  if ¬cmd.hasServerVersion then current
  else if cmd.hasMaxMessageSize then cmd.maxMessageSize
  else current

/-!
## Pending-request registry (`ClientConnection::sendRequestWithId`,
`handleProducerSuccess`, `handleRequestTimeout`)

A `PendingRequestData` carries a one-shot promise and the shared
`hasGotResponse` flag; the promise's completion state is kept inside the
registry entry so it stays observable. `promiseComplete` is one-shot: a second
completion is a no-op, as `Promise::setValue`/`setFailed` are.
-/

/-- The observable state of one `PendingRequestData`. -/
structure PendingRequestData where
  hasGotResponse : Bool
  promiseState : Option (Except Result ResponseData)
  deriving Repr

/-- A freshly registered request (`sendRequestWithId`). -/
def freshPendingRequest : PendingRequestData :=
  { hasGotResponse := false, promiseState := none }

/-- One-shot promise completion. -/
def promiseComplete (p : Option (Except Result ResponseData))
    (v : Except Result ResponseData) : Option (Except Result ResponseData) :=
  match p with
  | none => some v
  | some w => some w

/-- The `pendingRequests_` map (request id → pending request), as an
association list looked up by first match. -/
abbrev RequestRegistry := List (Nat × PendingRequestData)

/-- `pendingRequests_.find(requestId)`. -/
def lookupRequest (reg : RequestRegistry) (requestId : Nat) : Option PendingRequestData :=
  match reg with
  | [] => none
  | (k, d) :: rest => if k = requestId then some d else lookupRequest rest requestId

/-- Replace the entry for `requestId` (used for the shared-flag store). -/
def updateRequest (reg : RequestRegistry) (requestId : Nat) (d : PendingRequestData) :
    RequestRegistry :=
  match reg with
  | [] => []
  | (k, d0) :: rest =>
    if k = requestId then (k, d) :: rest
    else (k, d0) :: updateRequest rest requestId d

/-- `pendingRequests_.erase(it)`: a `std::map` never holds two entries with the
same key, so erasing the found entry is erasing every entry with that key. -/
def eraseRequest (reg : RequestRegistry) (requestId : Nat) : RequestRegistry :=
  match reg with
  | [] => []
  | (k, d0) :: rest =>
    if k = requestId then eraseRequest rest requestId
    else (k, d0) :: eraseRequest rest requestId

/-- The fields of a `proto::CommandProducerSuccess` frame. -/
structure CommandProducerSuccess where
  requestId : Nat
  producerName : String
  producerReady : Bool
  lastSequenceId : Int
  schemaVersion : Option String
  topicEpoch : Option Nat
  deriving DecidableEq, Repr

/-- The `ResponseData` `handleProducerSuccess` builds from a ready response. -/
def toResponseData (ps : CommandProducerSuccess) : ResponseData :=
  { producerName := ps.producerName
    lastSequenceId := ps.lastSequenceId
    schemaVersion := ps.schemaVersion.getD ""
    topicEpoch := ps.topicEpoch }

/-- `ClientConnection::handleProducerSuccess`: an unknown request id is
ignored; `producer_ready=false` only stores the shared `hasGotResponse` flag
and keeps the entry; `producer_ready=true` erases the entry and fulfills the
promise with the response data (also cancelling the deadline timer). -/
def handleProducerSuccess (reg : RequestRegistry) (ps : CommandProducerSuccess) :
    RequestRegistry :=
  match lookupRequest reg ps.requestId with
  | none => reg
  | some requestData =>
    if ¬ps.producerReady then
      updateRequest reg ps.requestId { requestData with hasGotResponse := true }
    else
      let _ := promiseComplete requestData.promiseState (Except.ok (toResponseData ps))
      eraseRequest reg ps.requestId

/-- The promise state observed by the caller of `sendRequestWithId` after
`handleProducerSuccess` ran (the promise outlives the registry entry). -/
def handleProducerSuccessPromise (reg : RequestRegistry) (ps : CommandProducerSuccess) :
    Option (Except Result ResponseData) :=
  match lookupRequest reg ps.requestId with
  | none => none
  | some requestData =>
    if ¬ps.producerReady then requestData.promiseState
    else promiseComplete requestData.promiseState (Except.ok (toResponseData ps))

/-- `ClientConnection::handleRequestTimeout(ec, requestData)` for the request
`requestId`: when the timer actually expired (`ec` clear) and the shared
`hasGotResponse` flag is not set, fail the promise with `ResultTimeout`;
otherwise nothing happens. -/
def handleRequestTimeout (reg : RequestRegistry) (requestId : Nat)
    (ec : Option TimerErr) : RequestRegistry :=
  match lookupRequest reg requestId with
  | none => reg
  | some requestData =>
    if ec = none ∧ ¬requestData.hasGotResponse then
      updateRequest reg requestId
        { requestData with
          promiseState := promiseComplete requestData.promiseState
            (Except.error Result.Timeout) }
    else reg

/-!
## Keep-alive (`ClientConnection::handleKeepAliveTimeout`,
`handleIncomingCommand`)
-/

/-- `ClientConnection::State`. -/
inductive CnxLifecycle where
  | Pending
  | TcpConnected
  | Ready
  | Disconnected
  deriving DecidableEq, Repr

/-- The connection state the keep-alive logic reads and writes. -/
structure CnxState where
  state : CnxLifecycle
  havePendingPingRequest : Bool
  deriving DecidableEq, Repr

/-- Externally visible actions of the keep-alive logic. -/
inductive CnxOut where
  | sendPing
  | closeWith (result : Result)
  deriving DecidableEq, Repr

/-- Modelled from the spec: the default argument of `ClientConnection::close`
(declared in `ClientConnection.h`, which is not part of this extract) is
`ResultRetryable`; `close` itself is idempotent and moves the state to
`Disconnected`. -/
def closeCnx (c : CnxState) (result : Result) : CnxState × List CnxOut :=
  if c.state = CnxLifecycle.Disconnected then (c, [])
  else ({ c with state := CnxLifecycle.Disconnected }, [CnxOut.closeWith result])

/-- `ClientConnection::handleKeepAliveTimeout`: a closed connection ignores the
firing; an outstanding ping forces `close()`; otherwise send one PING, set the
pending-ping flag and re-arm the timer. -/
def handleKeepAliveTimeout (c : CnxState) : CnxState × List CnxOut :=
  if c.state = CnxLifecycle.Disconnected then (c, [])
  else if c.havePendingPingRequest then closeCnx c Result.Retryable
  else ({ c with havePendingPingRequest := true }, [CnxOut.sendPing])

/-- The head of the `Ready` branch of `ClientConnection::handleIncomingCommand`:
any inbound frame processed while `Ready` clears the pending-ping flag before
being dispatched (no dispatch target sets the flag again). Frames in other
states leave the flag alone. -/
def handleIncomingFrame (c : CnxState) : CnxState :=
  if c.state = CnxLifecycle.Ready then { c with havePendingPingRequest := false }
  else c

/-- Events driving the keep-alive model. -/
inductive CnxEvent where
  | keepAliveFire
  | inboundFrame
  deriving DecidableEq, Repr

/-- One event step of the keep-alive model. -/
def cnxStep (c : CnxState) (e : CnxEvent) : CnxState × List CnxOut :=
  match e with
  | CnxEvent.keepAliveFire => handleKeepAliveTimeout c
  | CnxEvent.inboundFrame => (handleIncomingFrame c, [])

/-- Run a list of events, accumulating the outputs in order. -/
def cnxRun (c : CnxState) : List CnxEvent → CnxState × List CnxOut
  | [] => (c, [])
  | e :: es =>
    let step := cnxStep c e
    let rest := cnxRun step.1 es
    (rest.1, step.2 ++ rest.2)

/-- Number of `close` actions in an output trace. -/
def countCloses (outs : List CnxOut) : Nat :=
  (outs.filter (fun o => match o with
    | CnxOut.closeWith _ => true
    | _ => false)).length

/-!
## User-callback exception handling

A user callback is embedded as its outcome: `Except.error e` stands for the
callback throwing a `std::exception` whose message is `e`. Each completion
site of `ProducerImpl` is embedded as what it does with that outcome: the
sites wrapped in `try { ... } catch (const std::exception&)` swallow the
exception (they log and return normally); the bare completion loops let the
first exception propagate to the caller, i.e. into the I/O loop.
-/

/-- Outcome of invoking one user send callback. -/
abbrev CallbackOutcome := Except String Unit

/-- A completion wrapped in `try { op->complete(...) } catch (...) { LOG }`:
always returns normally. -/
def completeWithCatch (cb : CallbackOutcome) : CallbackOutcome :=
  match cb with
  | Except.ok _ => Except.ok ()
  | Except.error _ => Except.ok ()

/-- A bare completion loop `for (op : ops) op->complete(...)`: the first
throwing callback aborts the loop and propagates. -/
def completeAllNoCatch : List CallbackOutcome → CallbackOutcome
  | [] => Except.ok ()
  | cb :: rest =>
    match cb with
    | Except.ok _ => completeAllNoCatch rest
    | Except.error e => Except.error e

/-- `ProducerImpl::ackReceived`, completion tail (guarded by try/catch). -/
def ackReceivedCompleteCallback : CallbackOutcome → CallbackOutcome :=
  completeWithCatch

/-- `ProducerImpl::removeCorruptMessage`, completion tail (guarded by
try/catch). -/
def removeCorruptMessageCompleteCallback : CallbackOutcome → CallbackOutcome :=
  completeWithCatch

/-- `ProducerImpl::handleSendTimeout`, completion tail: the loop
`for (op : pendingMessages) op->complete(ResultTimeout, {})` has no try/catch. -/
def handleSendTimeoutCompleteCallbacks : List CallbackOutcome → CallbackOutcome :=
  completeAllNoCatch

/-- `ProducerImpl::failPendingMessages`, completion tail: the loop
`for (op : opSendMsgs) op->complete(result, {})` has no try/catch. -/
def failPendingMessagesCompleteCallbacks : List CallbackOutcome → CallbackOutcome :=
  completeAllNoCatch

/-!
## Theorems
-/

/-- Claim C10: `ProducerImpl::getNumOfChunks(size, maxMessageSize)` is total
and always returns at least 1; the division is guarded by
`size >= maxMessageSize && maxMessageSize != 0`, so a zero per-chunk limit or a
size below the limit yields 1 rather than a division by zero or a zero chunk
count. -/
theorem getNumOfChunks_total_pos (size maxMessageSize : Nat) :
    1 ≤ getNumOfChunks size maxMessageSize ∧
    (size < maxMessageSize → getNumOfChunks size maxMessageSize = 1) ∧
    (maxMessageSize = 0 → getNumOfChunks size maxMessageSize = 1) := by
  refine ⟨?_, ?_, ?_⟩
  · unfold getNumOfChunks
    split
    · rename_i h
      have h1 : 1 ≤ size / maxMessageSize :=
        (Nat.one_le_div_iff (Nat.pos_of_ne_zero h.2)).mpr h.1
      split <;> omega
    · exact le_refl 1
  · intro hlt
    unfold getNumOfChunks
    rw [if_neg]
    omega
  · intro h0
    unfold getNumOfChunks
    rw [if_neg]
    simp [h0]

/-- Witness: `getNumOfChunks` evaluated at a size below the limit and at a zero
limit. -/
theorem getNumOfChunks_total_pos_witness :
    1 ≤ getNumOfChunks 500 1024 ∧ getNumOfChunks 500 1024 = 1 ∧
    getNumOfChunks 500 0 = 1 :=
  ⟨(getNumOfChunks_total_pos 500 1024).1,
   (getNumOfChunks_total_pos 500 1024).2.1 (by decide),
   (getNumOfChunks_total_pos 500 0).2.2 rfl⟩

/-- Claim C6: the broker-error mapping sends `ServiceNotReady` to `Retryable`
exactly when the message does not contain the substring
"PulsarServerException" (and to `ServiceUnitNotReady` when it does); every
other known `ServerError` value maps to its fixed library `Result`, and any
value outside the known enum range maps to `UnknownError`. -/
theorem getResult_mapping (msg : String) :
    (ContainsSub msg "PulsarServerException" →
      getResult ServerError.ServiceNotReady msg = Result.ServiceUnitNotReady) ∧
    (¬ContainsSub msg "PulsarServerException" →
      getResult ServerError.ServiceNotReady msg = Result.Retryable) ∧
    getResult ServerError.UnknownError msg = Result.UnknownError ∧
    getResult ServerError.MetadataError msg = Result.BrokerMetadataError ∧
    getResult ServerError.PersistenceError msg = Result.BrokerPersistenceError ∧
    getResult ServerError.AuthenticationError msg = Result.AuthenticationError ∧
    getResult ServerError.AuthorizationError msg = Result.AuthorizationError ∧
    getResult ServerError.ConsumerBusy msg = Result.ConsumerBusy ∧
    getResult ServerError.ProducerBlockedQuotaExceededError msg =
      Result.ProducerBlockedQuotaExceededError ∧
    getResult ServerError.ProducerBlockedQuotaExceededException msg =
      Result.ProducerBlockedQuotaExceededException ∧
    getResult ServerError.ChecksumError msg = Result.ChecksumError ∧
    getResult ServerError.UnsupportedVersionError msg = Result.UnsupportedVersionError ∧
    getResult ServerError.TopicNotFound msg = Result.TopicNotFound ∧
    getResult ServerError.SubscriptionNotFound msg = Result.SubscriptionNotFound ∧
    getResult ServerError.ConsumerNotFound msg = Result.ConsumerNotFound ∧
    getResult ServerError.TooManyRequests msg = Result.TooManyLookupRequestException ∧
    getResult ServerError.TopicTerminatedError msg = Result.TopicTerminated ∧
    getResult ServerError.ProducerBusy msg = Result.ProducerBusy ∧
    getResult ServerError.InvalidTopicName msg = Result.InvalidTopicName ∧
    getResult ServerError.IncompatibleSchema msg = Result.IncompatibleSchema ∧
    getResult ServerError.ConsumerAssignError msg = Result.ConsumerAssignError ∧
    getResult ServerError.TransactionCoordinatorNotFound msg =
      Result.TransactionCoordinatorNotFoundError ∧
    getResult ServerError.InvalidTxnStatus msg = Result.InvalidTxnStatusError ∧
    getResult ServerError.NotAllowedError msg = Result.NotAllowedError ∧
    getResult ServerError.TransactionConflict msg = Result.TransactionConflict ∧
    getResult ServerError.TransactionNotFound msg = Result.TransactionNotFound ∧
    getResult ServerError.ProducerFenced msg = Result.ProducerFenced ∧
    (∀ e : Nat, getResult (e + 26) msg = Result.UnknownError) := by
  refine ⟨?_, ?_, rfl, rfl, rfl, rfl, rfl, rfl, rfl, rfl, rfl, rfl, rfl, rfl, rfl,
    rfl, rfl, rfl, rfl, rfl, rfl, rfl, rfl, rfl, rfl, rfl, rfl, fun e => rfl⟩
  · intro h
    have hb : containsSubstr msg "PulsarServerException" = true :=
      (containsSubstr_iff msg "PulsarServerException").mpr h
    simp [getResult, ServerError.ServiceNotReady, hb]
  · intro h
    have hb : containsSubstr msg "PulsarServerException" = false := by
      rcases Bool.eq_false_or_eq_true (containsSubstr msg "PulsarServerException") with ht | hf
      · exact absurd ((containsSubstr_iff msg "PulsarServerException").mp ht) h
      · exact hf
    simp [getResult, ServerError.ServiceNotReady, hb]

/-- Witness: the `ServiceNotReady` split evaluated on a message that contains
the marker and one that does not. -/
theorem getResult_mapping_witness :
    getResult ServerError.ServiceNotReady "org.apache.pulsar.PulsarServerException: oops" =
      Result.ServiceUnitNotReady ∧
    getResult ServerError.ServiceNotReady "namespace bundle is being unloaded" =
      Result.Retryable :=
  ⟨(getResult_mapping "org.apache.pulsar.PulsarServerException: oops").1
      ⟨"org.apache.pulsar.".toList, ": oops".toList, by decide⟩,
   (getResult_mapping "namespace bundle is being unloaded").2.1
      (fun h => absurd ((containsSubstr_iff "namespace bundle is being unloaded"
        "PulsarServerException").mpr h) (by decide))⟩

/-- Claim C5, counterexample: `handlePulsarConnected` stores the advertised
`max_message_size` unconditionally (last-write-wins), so a CONNECTED frame
advertising 50 while the process-wide value is 100 makes
`getMaxMessageSize` return 50 afterwards — strictly smaller, not monotone. -/
theorem maxMessageSize_not_monotone :
    ¬(100 ≤ handlePulsarConnectedMaxMessageSize 100
        { hasServerVersion := true, hasMaxMessageSize := true,
          maxMessageSize := 50, protocolVersion := 19 }) := by decide

/-- Claim C5, amended: for every CONNECTED frame carrying a server version that
is processed by a connection, the process-wide value read back by
`ClientConnection::getMaxMessageSize` afterwards is exactly the advertised
`max_message_size` when the field is present (last-write-wins, not monotone),
and is unchanged when it is absent. -/
theorem handlePulsarConnectedMaxMessageSize_lastWriteWins
    (current : Int) (cmd : CommandConnected) (hv : cmd.hasServerVersion = true) :
    (cmd.hasMaxMessageSize = true →
      handlePulsarConnectedMaxMessageSize current cmd = cmd.maxMessageSize) ∧
    (cmd.hasMaxMessageSize = false →
      handlePulsarConnectedMaxMessageSize current cmd = current) := by
  constructor <;> intro h <;> simp [handlePulsarConnectedMaxMessageSize, hv, h]

/-- Witness: a frame advertising 50 over a prior value of 100 stores 50. -/
theorem handlePulsarConnectedMaxMessageSize_lastWriteWins_witness :
    handlePulsarConnectedMaxMessageSize 100
      { hasServerVersion := true, hasMaxMessageSize := true,
        maxMessageSize := 50, protocolVersion := 19 } = 50 :=
  (handlePulsarConnectedMaxMessageSize_lastWriteWins 100
    { hasServerVersion := true, hasMaxMessageSize := true,
      maxMessageSize := 50, protocolVersion := 19 } rfl).1 rfl

/-- Claim C9, counterexample: the completion loop of
`ProducerImpl::handleSendTimeout` invokes user callbacks without a try/catch,
so a callback that throws propagates out of the producer into the I/O loop. -/
theorem handleSendTimeout_callback_exception_escapes :
    handleSendTimeoutCompleteCallbacks [Except.error "user callback threw"] ≠
      Except.ok () :=
  fun h => Except.noConfusion h

/-- Claim C9, amended: an exception thrown by a user send callback is caught
and logged on the ack-receipt (`ackReceived`) and corrupt-message-removal
(`removeCorruptMessage`) paths, but the send-timeout (`handleSendTimeout`) and
pending-message-failure (`failPendingMessages`) completion loops invoke the
callbacks bare, so there a throwing callback propagates out of the producer. -/
theorem callbackExceptionHandling (cb : CallbackOutcome) (e : String)
    (cbs : List CallbackOutcome) :
    ackReceivedCompleteCallback cb = Except.ok () ∧
    removeCorruptMessageCompleteCallback cb = Except.ok () ∧
    handleSendTimeoutCompleteCallbacks (Except.error e :: cbs) = Except.error e ∧
    failPendingMessagesCompleteCallbacks (Except.error e :: cbs) = Except.error e := by
  refine ⟨?_, ?_, rfl, rfl⟩ <;> cases cb <;> rfl

/-- Claim C3: in non-blocking admission mode, `canEnqueueRequest(bytes)`
returns `ProducerQueueIsFull` with the state untouched when the semaphore has
no permit; when a permit is taken but the byte reservation fails it puts the
permit back and returns `MemoryBufferIsFull` with the state untouched; and it
returns `Ok` exactly when both the permit and the reservation were obtained,
in which case one permit and `bytes` of memory are held. -/
theorem canEnqueueRequest_nonblocking (p : ProducerState) (n payloadSize : Nat)
    (hb : p.blockIfQueueFull = false) (hs : p.semaphore = some n) :
    (n = 0 → canEnqueueRequest p payloadSize = (Result.ProducerQueueIsFull, p)) ∧
    (n ≠ 0 → p.memLimit < p.memUsed + payloadSize →
      canEnqueueRequest p payloadSize = (Result.MemoryBufferIsFull, p)) ∧
    ((canEnqueueRequest p payloadSize).1 = Result.Ok ↔
      n ≠ 0 ∧ p.memUsed + payloadSize ≤ p.memLimit) ∧
    (n ≠ 0 → p.memUsed + payloadSize ≤ p.memLimit →
      canEnqueueRequest p payloadSize =
        (Result.Ok, { p with semaphore := some (n - 1),
                             memUsed := p.memUsed + payloadSize })) := by
  cases p with
  | mk st pq bc sem semc mu ml lsp gen part sto blk iseq pn sv te cx =>
    simp only at hb hs
    subst hb
    subst hs
    dsimp only
    refine ⟨?_, ?_, ?_, ?_⟩
    · intro h0
      subst h0
      simp [canEnqueueRequest]
    · intro hn hmem
      simp only [canEnqueueRequest, Bool.false_eq_true, if_false]
      rw [if_neg hn, if_neg (by omega : ¬(mu + payloadSize ≤ ml))]
    · simp only [canEnqueueRequest, Bool.false_eq_true, if_false]
      by_cases hn : n = 0
      · subst hn
        simp
      · rw [if_neg hn]
        by_cases hmem : mu + payloadSize ≤ ml
        · simp [if_pos hmem, hn, hmem]
        · simp [if_neg hmem, hn, hmem]
    · intro hn hmem
      simp only [canEnqueueRequest, Bool.false_eq_true, if_false]
      rw [if_neg hn, if_pos hmem]

/-- Witness: a producer with one free permit and a 10-byte budget admits a
10-byte message, rejects an 11-byte one with `MemoryBufferIsFull`, and rejects
anything once the permit is gone. -/
theorem canEnqueueRequest_nonblocking_witness :
    (canEnqueueRequest
        { state := HandlerState.Ready, pendingMessagesQueue := [],
          batchMessageContainer := none, semaphore := some 1,
          semaphoreClosed := false, memUsed := 0, memLimit := 10,
          lastSequenceIdPublished := -1, msgSequenceGenerator := 0,
          partition := -1, sendTimeoutMs := 30000, blockIfQueueFull := false,
          initialSequenceId := -1, producerName := "p", schemaVersion := "",
          topicEpoch := none, cnx := none } 11).1 = Result.MemoryBufferIsFull ∧
    (canEnqueueRequest
        { state := HandlerState.Ready, pendingMessagesQueue := [],
          batchMessageContainer := none, semaphore := some 1,
          semaphoreClosed := false, memUsed := 0, memLimit := 10,
          lastSequenceIdPublished := -1, msgSequenceGenerator := 0,
          partition := -1, sendTimeoutMs := 30000, blockIfQueueFull := false,
          initialSequenceId := -1, producerName := "p", schemaVersion := "",
          topicEpoch := none, cnx := none } 10).1 = Result.Ok := by
  constructor
  · have h := (canEnqueueRequest_nonblocking
      { state := HandlerState.Ready, pendingMessagesQueue := [],
        batchMessageContainer := none, semaphore := some 1,
        semaphoreClosed := false, memUsed := 0, memLimit := 10,
        lastSequenceIdPublished := -1, msgSequenceGenerator := 0,
        partition := -1, sendTimeoutMs := 30000, blockIfQueueFull := false,
        initialSequenceId := -1, producerName := "p", schemaVersion := "",
        topicEpoch := none, cnx := none } 1 11 rfl rfl).2.1
      (by decide) (by decide)
    rw [h]
  · exact (canEnqueueRequest_nonblocking
      { state := HandlerState.Ready, pendingMessagesQueue := [],
        batchMessageContainer := none, semaphore := some 1,
        semaphoreClosed := false, memUsed := 0, memLimit := 10,
        lastSequenceIdPublished := -1, msgSequenceGenerator := 0,
        partition := -1, sendTimeoutMs := 30000, blockIfQueueFull := false,
        initialSequenceId := -1, producerName := "p", schemaVersion := "",
        topicEpoch := none, cnx := none } 1 10 rfl rfl).2.2.1.mpr
      ⟨by decide, by decide⟩

/-- A concrete raw `MessageId` as a broker sends it in a SEND_RECEIPT. -/
def sampleRaw : MessageIdData :=
  { ledgerId := 1, entryId := 0, partition := -1, batchIndex := -1 }

/-- A concrete pending op: sequence id 5, a 2-message batch of 100 bytes. -/
def sampleOp : OpSendMsg :=
  { sendArgs := { sequenceId := 5, frame := [1, 2, 3] }, result := Result.Ok,
    messagesCount := 2, messagesSize := 100, timeout := 30000,
    chunkId := 0, numChunks := 1, chunkedMessageId := none }

/-- A concrete Ready producer on partition 3 with `sampleOp` in flight. -/
def sampleProducer : ProducerState :=
  { state := HandlerState.Ready, pendingMessagesQueue := [sampleOp],
    batchMessageContainer := none, semaphore := some 999,
    semaphoreClosed := false, memUsed := 100, memLimit := 1000,
    lastSequenceIdPublished := 4, msgSequenceGenerator := 6, partition := 3,
    sendTimeoutMs := 30000, blockIfQueueFull := false, initialSequenceId := -1,
    producerName := "p", schemaVersion := "", topicEpoch := none, cnx := some 0 }

/-- Claim C1: given a non-empty pending queue whose head op has result `Ok`
and expected sequence id `E`, `ackReceived(seq, msgId)` returns `false` when
`seq > E`; returns `true` leaving the queue, semaphore, memory accounting and
`lastSequenceIdPublished` untouched when `seq < E`; and when `seq == E`
releases `messagesCount` permits and `messagesSize` bytes, sets
`lastSequenceIdPublished = seq + messagesCount - 1`, pops exactly the head,
completes its callback with `Ok` and the partition-augmented `MessageId`, and
returns `true`. -/
theorem ackReceived_cases (p : ProducerState) (op : OpSendMsg)
    (rest : List OpSendMsg) (seq : Nat) (raw : MessageIdData)
    (hq : p.pendingMessagesQueue = op :: rest) (hok : op.result = Result.Ok) :
    (op.sendArgs.sequenceId < seq → ackReceived p seq raw = (false, p, none)) ∧
    (seq < op.sendArgs.sequenceId → ackReceived p seq raw = (true, p, none)) ∧
    (seq = op.sendArgs.sequenceId →
      ackReceived p seq raw =
        (true,
         { p with
             semaphore := p.semaphore.map (· + op.messagesCount)
             memUsed := p.memUsed - op.messagesSize
             lastSequenceIdPublished := (seq : Int) + op.messagesCount - 1
             pendingMessagesQueue := rest },
         some (Result.Ok, ackMessageId op (partitionAugment raw p.partition))) ∧
      (op.chunkedMessageId = none →
        ackMessageId op (partitionAugment raw p.partition) =
          MessageId.plain (partitionAugment raw p.partition))) := by
  refine ⟨?_, ?_, ?_⟩
  · intro hgt
    simp [ackReceived, hq, hok, hgt]
  · intro hlt
    simp [ackReceived, hq, hok, hlt, Nat.not_lt.mpr (Nat.le_of_lt hlt)]
  · intro heq
    subst heq
    refine ⟨?_, ?_⟩
    · simp [ackReceived, hq, hok, releaseSemaphoreForSendOp]
    · intro hnc
      simp [ackMessageId, hnc]

/-- Witness: the ack for sequence 5 on `sampleProducer` pops the head,
releases 2 permits and 100 bytes, advances `lastSequenceIdPublished` to 6 and
completes the callback with the partition-augmented id. -/
theorem ackReceived_cases_witness :
    sampleProducer.pendingMessagesQueue = sampleOp :: [] ∧
    sampleOp.result = Result.Ok ∧
    ackReceived sampleProducer 5 sampleRaw =
      (true,
       { sampleProducer with
           semaphore := some 1001, memUsed := 0,
           lastSequenceIdPublished := 6, pendingMessagesQueue := [] },
       some (Result.Ok,
         MessageId.plain { ledgerId := 1, entryId := 0, partition := 3,
                           batchIndex := -1 })) := by
  refine ⟨rfl, rfl, ?_⟩
  have h := ((ackReceived_cases sampleProducer sampleOp [] 5 sampleRaw rfl rfl).2.2 rfl).1
  rw [h]
  decide

/-- Claim C2: the success branch of `handleCreateProducer` re-sends exactly
the pending ops, in queue order and with their stored `sendArgs` untouched, to
the new connection, and only afterwards attaches the connection and enters
`Ready` — so its action trace is the register action, then the `k`
retransmissions, then attach, then Ready, with the pending queue preserved. -/
theorem handleCreateProducerOk_resends (p : ProducerState) (cnxId : Nat)
    (rd : ResponseData) :
    (handleCreateProducerOk p cnxId rd).2 =
      ProducerEvent.registerProducer cnxId ::
        (p.pendingMessagesQueue.map fun op => ProducerEvent.sendToCnx cnxId op.sendArgs) ++
        [ProducerEvent.attachCnx cnxId, ProducerEvent.setReady] ∧
    (handleCreateProducerOk p cnxId rd).1.pendingMessagesQueue =
      p.pendingMessagesQueue ∧
    (handleCreateProducerOk p cnxId rd).1.state = HandlerState.Ready ∧
    (handleCreateProducerOk p cnxId rd).1.cnx = some cnxId := by
  by_cases hc : p.lastSequenceIdPublished = -1 ∧ p.initialSequenceId = -1 <;>
    simp [handleCreateProducerOk, resendMessages, hc]

/-- Claim C7: from a Ready connection with no outstanding ping, the first
keep-alive firing sends exactly one PING and sets the pending-ping flag; a
second firing with no inbound frame in between triggers exactly one
`close(Retryable)` (and later firings add no further close); an inbound frame
processed in Ready state between the firings clears the flag, so no close
occurs. -/
theorem keepAlive_protocol (c : CnxState) (hready : c.state = CnxLifecycle.Ready)
    (hping : c.havePendingPingRequest = false) :
    cnxStep c CnxEvent.keepAliveFire =
      ({ c with havePendingPingRequest := true }, [CnxOut.sendPing]) ∧
    (cnxRun c [CnxEvent.keepAliveFire, CnxEvent.keepAliveFire]).2 =
      [CnxOut.sendPing, CnxOut.closeWith Result.Retryable] ∧
    countCloses (cnxRun c [CnxEvent.keepAliveFire, CnxEvent.keepAliveFire,
      CnxEvent.keepAliveFire]).2 = 1 ∧
    (cnxRun c [CnxEvent.keepAliveFire, CnxEvent.inboundFrame,
      CnxEvent.keepAliveFire]).2 = [CnxOut.sendPing, CnxOut.sendPing] := by
  cases c with
  | mk st ping =>
    simp only at hready hping
    subst hready
    subst hping
    exact ⟨rfl, rfl, rfl, rfl⟩

/-- Witness: the keep-alive protocol run from the concrete Ready state. -/
theorem keepAlive_protocol_witness :
    (cnxRun { state := CnxLifecycle.Ready, havePendingPingRequest := false }
      [CnxEvent.keepAliveFire, CnxEvent.keepAliveFire]).2 =
      [CnxOut.sendPing, CnxOut.closeWith Result.Retryable] ∧
    (cnxRun { state := CnxLifecycle.Ready, havePendingPingRequest := false }
      [CnxEvent.keepAliveFire, CnxEvent.inboundFrame, CnxEvent.keepAliveFire]).2 =
      [CnxOut.sendPing, CnxOut.sendPing] :=
  ⟨(keepAlive_protocol { state := CnxLifecycle.Ready, havePendingPingRequest := false }
      rfl rfl).2.1,
   (keepAlive_protocol { state := CnxLifecycle.Ready, havePendingPingRequest := false }
      rfl rfl).2.2.2⟩

theorem lookupRequest_updateRequest (reg : RequestRegistry) (k : Nat)
    (d : PendingRequestData) :
    lookupRequest (updateRequest reg k d) k =
      match lookupRequest reg k with
      | none => none
      | some _ => some d := by
  induction reg with
  | nil => rfl
  | cons kv rest ih =>
    obtain ⟨k0, d0⟩ := kv
    by_cases hk : k0 = k
    · subst hk
      simp [updateRequest, lookupRequest]
    · simp [updateRequest, lookupRequest, hk, ih]

theorem lookupRequest_eraseRequest (reg : RequestRegistry) (k : Nat) :
    lookupRequest (eraseRequest reg k) k = none := by
  induction reg with
  | nil => rfl
  | cons kv rest ih =>
    obtain ⟨k0, d0⟩ := kv
    by_cases hk : k0 = k <;> simp [eraseRequest, lookupRequest, hk, ih]

theorem handleProducerSuccess_queued (reg : RequestRegistry)
    (ps : CommandProducerSuccess) (d : PendingRequestData)
    (hl : lookupRequest reg ps.requestId = some d)
    (hr : ps.producerReady = false) :
    handleProducerSuccess reg ps =
      updateRequest reg ps.requestId { d with hasGotResponse := true } := by
  simp [handleProducerSuccess, hl, hr]

theorem handleProducerSuccess_ready (reg : RequestRegistry)
    (ps : CommandProducerSuccess) (d : PendingRequestData)
    (hl : lookupRequest reg ps.requestId = some d)
    (hr : ps.producerReady = true) :
    handleProducerSuccess reg ps = eraseRequest reg ps.requestId := by
  simp [handleProducerSuccess, hl, hr]

theorem handleProducerSuccessPromise_queued (reg : RequestRegistry)
    (ps : CommandProducerSuccess) (d : PendingRequestData)
    (hl : lookupRequest reg ps.requestId = some d)
    (hr : ps.producerReady = false) :
    handleProducerSuccessPromise reg ps = d.promiseState := by
  simp [handleProducerSuccessPromise, hl, hr]

theorem handleProducerSuccessPromise_ready (reg : RequestRegistry)
    (ps : CommandProducerSuccess) (d : PendingRequestData)
    (hl : lookupRequest reg ps.requestId = some d)
    (hr : ps.producerReady = true) :
    handleProducerSuccessPromise reg ps =
      promiseComplete d.promiseState (Except.ok (toResponseData ps)) := by
  simp [handleProducerSuccessPromise, hl, hr]

theorem handleRequestTimeout_noResponse (reg : RequestRegistry) (reqId : Nat)
    (d : PendingRequestData) (hl : lookupRequest reg reqId = some d)
    (hr : d.hasGotResponse = false) :
    handleRequestTimeout reg reqId none =
      updateRequest reg reqId
        { d with
          promiseState := promiseComplete d.promiseState (Except.error Result.Timeout) } := by
  simp [handleRequestTimeout, hl, hr]

theorem handleRequestTimeout_hasResponse (reg : RequestRegistry) (reqId : Nat)
    (d : PendingRequestData) (hl : lookupRequest reg reqId = some d)
    (hr : d.hasGotResponse = true) :
    handleRequestTimeout reg reqId none = reg := by
  simp [handleRequestTimeout, hl, hr]

/-- Claim C8: for a freshly registered pending request, a PRODUCER_SUCCESS
with `producer_ready=false` sets the has-response flag, keeps the entry and
does not complete the promise; a later PRODUCER_SUCCESS with
`producer_ready=true` removes the entry and fulfills the promise with the
response data; and the deadline-timer firing fails the promise with `Timeout`
exactly when the has-response flag is not set. -/
theorem pendingRequest_producerSuccess_timeout
    (reg : RequestRegistry) (reqId : Nat) (ps1 ps2 : CommandProducerSuccess)
    (h0 : lookupRequest reg reqId = some freshPendingRequest)
    (h1id : ps1.requestId = reqId) (h1r : ps1.producerReady = false)
    (h2id : ps2.requestId = reqId) (h2r : ps2.producerReady = true) :
    lookupRequest (handleProducerSuccess reg ps1) reqId =
      some { hasGotResponse := true, promiseState := none } ∧
    handleProducerSuccessPromise reg ps1 = none ∧
    lookupRequest (handleProducerSuccess (handleProducerSuccess reg ps1) ps2)
      reqId = none ∧
    handleProducerSuccessPromise (handleProducerSuccess reg ps1) ps2 =
      some (Except.ok (toResponseData ps2)) ∧
    lookupRequest (handleRequestTimeout reg reqId none) reqId =
      some { hasGotResponse := false,
             promiseState := some (Except.error Result.Timeout) } ∧
    handleRequestTimeout (handleProducerSuccess reg ps1) reqId none =
      handleProducerSuccess reg ps1 := by
  have h0' : lookupRequest reg ps1.requestId = some freshPendingRequest := by
    rw [h1id]; exact h0
  have e1 := handleProducerSuccess_queued reg ps1 freshPendingRequest h0' h1r
  have l1 : lookupRequest (handleProducerSuccess reg ps1) reqId =
      some { hasGotResponse := true, promiseState := none } := by
    rw [e1, h1id, lookupRequest_updateRequest, h0]
    rfl
  have l1' : lookupRequest (handleProducerSuccess reg ps1) ps2.requestId =
      some { hasGotResponse := true, promiseState := none } := by
    rw [h2id]; exact l1
  refine ⟨l1, ?_, ?_, ?_, ?_, ?_⟩
  · rw [handleProducerSuccessPromise_queued reg ps1 freshPendingRequest h0' h1r]
    rfl
  · rw [handleProducerSuccess_ready (handleProducerSuccess reg ps1) ps2 _ l1' h2r,
      h2id, lookupRequest_eraseRequest]
  · rw [handleProducerSuccessPromise_ready (handleProducerSuccess reg ps1) ps2 _ l1' h2r]
    rfl
  · rw [handleRequestTimeout_noResponse reg reqId freshPendingRequest h0 rfl,
      lookupRequest_updateRequest, h0]
    rfl
  · exact handleRequestTimeout_hasResponse (handleProducerSuccess reg ps1) reqId _ l1 rfl

/-- A concrete CREATE_PRODUCER response pair sharing request id 7: the broker
first queues the producer, then reports it ready. -/
def samplePSQueued : CommandProducerSuccess :=
  { requestId := 7, producerName := "assigned", producerReady := false,
    lastSequenceId := -1, schemaVersion := none, topicEpoch := none }

/-- The ready follow-up to `samplePSQueued`. -/
def samplePSReady : CommandProducerSuccess :=
  { requestId := 7, producerName := "assigned", producerReady := true,
    lastSequenceId := 41, schemaVersion := some "v1", topicEpoch := some 2 }

/-- Witness: the queued-then-ready protocol on a singleton registry. -/
theorem pendingRequest_producerSuccess_timeout_witness :
    lookupRequest (handleProducerSuccess [(7, freshPendingRequest)] samplePSQueued) 7 =
      some { hasGotResponse := true, promiseState := none } ∧
    lookupRequest (handleProducerSuccess
      (handleProducerSuccess [(7, freshPendingRequest)] samplePSQueued)
      samplePSReady) 7 = none ∧
    handleProducerSuccessPromise
      (handleProducerSuccess [(7, freshPendingRequest)] samplePSQueued)
      samplePSReady = some (Except.ok (toResponseData samplePSReady)) := by
  have h := pendingRequest_producerSuccess_timeout [(7, freshPendingRequest)] 7
    samplePSQueued samplePSReady (by simp [lookupRequest]) rfl rfl rfl rfl
  exact ⟨h.1, h.2.2.1, h.2.2.2.1⟩

theorem foldl_releaseSemaphoreForSendOp (p : ProducerState) (l : List OpSendMsg) :
    l.foldl releaseSemaphoreForSendOp p =
      { p with
        semaphore := p.semaphore.map (· + (l.map OpSendMsg.messagesCount).sum)
        memUsed := p.memUsed - (l.map OpSendMsg.messagesSize).sum } := by
  induction l generalizing p with
  | nil =>
    simp only [List.foldl_nil, List.map_nil, List.sum_nil, Nat.sub_zero]
    cases p with
    | mk st pq bc sem semc mu ml lsp gen part sto blk iseq pn sv te cx =>
      cases sem <;> simp
  | cons a l ih =>
    rw [List.foldl_cons, ih]
    simp only [releaseSemaphoreForSendOp, List.map_cons, List.sum_cons]
    cases p with
    | mk st pq bc sem semc mu ml lsp gen part sto blk iseq pn sv te cx =>
      cases sem <;> simp [Nat.sub_sub, Nat.add_assoc]

theorem getPendingCallbacksWhenFailed_eq (p : ProducerState) :
    getPendingCallbacksWhenFailed p =
      (p.pendingMessagesQueue ++
        (p.batchMessageContainer.getD []).filter (fun op => op.result == Result.Ok),
       { p with
         pendingMessagesQueue := []
         batchMessageContainer :=
           if (p.batchMessageContainer.getD []).isEmpty then p.batchMessageContainer
           else some []
         semaphore := p.semaphore.map
           (· + ((p.pendingMessagesQueue ++ p.batchMessageContainer.getD []).map
              OpSendMsg.messagesCount).sum)
         memUsed := p.memUsed - ((p.pendingMessagesQueue ++
            p.batchMessageContainer.getD []).map OpSendMsg.messagesSize).sum }) := by
  cases p with
  | mk st pq bc sem semc mu ml lsp gen part sto blk iseq pn sv te cx =>
    cases bc with
    | none =>
      simp only [getPendingCallbacksWhenFailed, foldl_releaseSemaphoreForSendOp]
      simp
    | some ops =>
      cases hops : ops.isEmpty with
      | true =>
        have : ops = [] := List.isEmpty_iff.mp hops
        subst this
        simp only [getPendingCallbacksWhenFailed, foldl_releaseSemaphoreForSendOp]
        simp
      | false =>
        simp only [getPendingCallbacksWhenFailed, foldl_releaseSemaphoreForSendOp]
        simp [hops, Nat.sub_sub]

/-- Claim C4: when the send-timeout timer fires with no timer error while the
producer is Pending or Ready: an empty queue only re-arms the timer to
`sendTimeout`; with `diff = head.timeoutDeadline - now <= 0` every queued op is
removed, its permits and memory released and its callback completed with
`Timeout` (together with whatever a non-empty batch container drains), and the
timer is re-armed to `sendTimeout`; with `diff > 0` the timer is re-armed to
`diff` and nothing changes. -/
theorem handleSendTimeout_cases (p : ProducerState) (now : Int)
    (hstate : p.state = HandlerState.Pending ∨ p.state = HandlerState.Ready) :
    (p.pendingMessagesQueue = [] →
      handleSendTimeout p none now = (p, some p.sendTimeoutMs, [])) ∧
    (∀ op rest, p.pendingMessagesQueue = op :: rest →
      op.timeout - now ≤ 0 →
      handleSendTimeout p none now =
        ({ p with
            pendingMessagesQueue := []
            batchMessageContainer :=
              if (p.batchMessageContainer.getD []).isEmpty then p.batchMessageContainer
              else some []
            semaphore := p.semaphore.map
              (· + ((p.pendingMessagesQueue ++ p.batchMessageContainer.getD []).map
                 OpSendMsg.messagesCount).sum)
            memUsed := p.memUsed - ((p.pendingMessagesQueue ++
               p.batchMessageContainer.getD []).map OpSendMsg.messagesSize).sum },
         some p.sendTimeoutMs,
         (p.pendingMessagesQueue ++
           (p.batchMessageContainer.getD []).filter (fun o => o.result == Result.Ok)).map
             (fun o => (o, Result.Timeout)))) ∧
    (∀ op rest, p.pendingMessagesQueue = op :: rest →
      0 < op.timeout - now →
      handleSendTimeout p none now = (p, some (op.timeout - now), [])) := by
  have hguard : ¬(p.state ≠ HandlerState.Pending ∧ p.state ≠ HandlerState.Ready) := by
    rcases hstate with h | h <;> simp [h]
  refine ⟨?_, ?_, ?_⟩
  · intro hq
    simp [handleSendTimeout, hguard, hq]
  · intro op rest hq hdiff
    rw [handleSendTimeout, if_neg hguard]
    simp only [Option.isSome_none, Bool.false_eq_true, if_false, hq,
      if_pos hdiff, getPendingCallbacksWhenFailed_eq, hq]
  · intro op rest hq hdiff
    rw [handleSendTimeout, if_neg hguard]
    simp only [Option.isSome_none, Bool.false_eq_true, if_false, hq,
      if_neg (by omega : ¬(op.timeout - now ≤ 0))]

/-- Witness: the timer firing at t=40000 on `sampleProducer` (deadline 30000)
drains the single op with `Timeout`, releases its 2 permits and 100 bytes and
re-arms to the configured 30000 ms; firing at t=25000 re-arms to 5000 ms and
leaves everything unchanged. -/
theorem handleSendTimeout_cases_witness :
    handleSendTimeout sampleProducer none 40000 =
      ({ sampleProducer with
          pendingMessagesQueue := [], semaphore := some 1001, memUsed := 0 },
       some 30000, [(sampleOp, Result.Timeout)]) ∧
    handleSendTimeout sampleProducer none 25000 =
      (sampleProducer, some 5000, []) := by
  constructor
  · have h := (handleSendTimeout_cases sampleProducer 40000 (Or.inr rfl)).2.1
      sampleOp [] rfl (by decide)
    rw [h]
    decide
  · have h := (handleSendTimeout_cases sampleProducer 25000 (Or.inr rfl)).2.2
      sampleOp [] rfl (by decide)
    rw [h]
    decide

end PulsarClient
